import Mathlib

/-!
Verification of the vertical-farming estimation core
(`ml_models.py`, `data/crop_data.py`).

The Python code is shallowly embedded:

* machine floats become `ℚ` with Python's round-half-to-even rounding
  made explicit (`roundHalfEven`, `roundTo`);
* `random.uniform a b` becomes `uniformDraw a b r` for a draw
  `r ∈ [0, 1)`, `random.choice l` becomes `randomChoice l i` for an
  arbitrary index draw `i` (`none` models the `IndexError` on an empty
  sequence), `random.randint a b` becomes `randint a b k`;
* the fitted sklearn estimators, label encoders and the scaler are
  opaque parameters of a `FarmModel` record: an encoder is a partial
  map `String → Option ℤ` (`none` models the `ValueError` raised on an
  unseen category), a regressor is a function `List ℚ → ℚ` from the
  (scaled) feature vector to the predicted value, and the classifier
  exposes its `classes_` list and a `predict_proba` function;
* `np.argsort(probabilities)[-5:][::-1]` followed by indexing into
  `classes_` is modelled by sorting the `(class, probability)` pairs by
  descending probability and taking the first five (tie order is
  implementation-defined in both).
-/

/-- Python 3 `round(q)`: round half to even (banker's rounding). -/
def roundHalfEven (q : ℚ) : ℤ :=
  if q - ⌊q⌋ < 1/2 then ⌊q⌋
  else if 1/2 < q - ⌊q⌋ then ⌊q⌋ + 1
  else if 2 ∣ ⌊q⌋ then ⌊q⌋ else ⌊q⌋ + 1

/-- Python 3 `round(q, n)`: round to `n` decimal digits, ties to even. -/
def roundTo (n : ℕ) (q : ℚ) : ℚ :=
  (roundHalfEven (q * 10 ^ n) : ℚ) / 10 ^ n

/-- Python `random.uniform a b = a + (b - a) * random()` with `random() ∈ [0, 1)`. -/
def uniformDraw (a b r : ℚ) : ℚ := a + (b - a) * r

/-- Python `random.choice l` picks some element of `l`; an empty sequence raises
(`none`).  The index draw `i` is arbitrary. -/
def randomChoice (l : List α) (i : ℕ) : Option α := l[i % l.length]?

/-- Python `random.randint a b`: a uniform integer in `[a, b]`; raises (`none`)
when `a > b`.  The draw `k` is arbitrary. -/
def randint (a b : ℤ) (k : ℕ) : Option ℤ :=
  if a ≤ b then some (a + (k : ℤ) % (b - a + 1)) else none

/-- One entry of the static `crop_profiles` dict in
`generate_crop_recommendation_data` (`temp_range` and `humidity_range`
are split into their two components). -/
structure CropProfile where
  preferred_climate : List String
  water_needs : List String
  light_tolerance : List String
  temp_min : ℤ
  temp_max : ℤ
  humidity_min : ℤ
  humidity_max : ℤ
  min_budget_per_sqm : ℤ
  min_area : ℤ
deriving DecidableEq
def crop_profiles_1 : List (String × CropProfile) := [
  ("Arugula", ⟨["temperate_humid", "temperate_dry"], ["medium"], ["natural", "artificial", "hybrid"], 14, 22, 55, 70, 190, 3⟩),
  ("Asian Greens", ⟨["temperate_humid", "tropical_humid"], ["medium", "high"], ["artificial", "hybrid"], 16, 26, 60, 75, 220, 4⟩),
  ("Baby Bok Choy", ⟨["temperate_humid", "cold"], ["medium", "high"], ["artificial", "hybrid"], 12, 24, 65, 80, 240, 5⟩),
  ("Baby Lettuce", ⟨["temperate_humid", "temperate_dry"], ["medium"], ["natural", "artificial", "hybrid"], 15, 23, 50, 68, 185, 4⟩),
  ("Butter Lettuce", ⟨["temperate_humid"], ["medium", "high"], ["artificial", "hybrid"], 16, 24, 55, 70, 210, 5⟩),
  ("Cabbage", ⟨["cold", "temperate_humid"], ["high"], ["natural", "artificial", "hybrid"], 10, 20, 60, 75, 280, 8⟩),
  ("Chinese Cabbage", ⟨["temperate_humid", "cold"], ["medium", "high"], ["artificial", "hybrid"], 12, 22, 65, 78, 260, 6⟩),
  ("Collard Greens", ⟨["temperate_humid", "cold"], ["medium", "high"], ["natural", "artificial", "hybrid"], 8, 24, 60, 75, 230, 6⟩),
  ("Endive", ⟨["temperate_humid", "temperate_dry"], ["medium"], ["artificial", "hybrid"], 14, 22, 55, 70, 220, 4⟩),
  ("Escarole", ⟨["temperate_humid"], ["medium"], ["artificial", "hybrid"], 15, 23, 58, 72, 215, 5⟩),
  ("Iceberg Lettuce", ⟨["temperate_humid", "temperate_dry"], ["high"], ["artificial", "hybrid"], 14, 22, 55, 70, 250, 7⟩),
  ("Kale", ⟨["temperate_humid", "temperate_dry", "cold"], ["medium", "high"], ["natural", "artificial", "hybrid"], 10, 24, 55, 75, 220, 4⟩),
  ("Lettuce", ⟨["temperate_humid", "temperate_dry"], ["medium", "high"], ["natural", "artificial", "hybrid"], 15, 25, 50, 70, 200, 5⟩),
  ("Mizuna", ⟨["temperate_humid", "cold"], ["medium"], ["artificial", "hybrid"], 12, 22, 60, 75, 205, 3⟩),
  ("Mustard Greens", ⟨["temperate_humid", "cold"], ["medium"], ["artificial", "hybrid"], 14, 24, 55, 70, 195, 4⟩),
  ("Oak Leaf Lettuce", ⟨["temperate_humid"], ["medium"], ["artificial", "hybrid"], 16, 24, 52, 68, 195, 4⟩),
  ("Radicchio", ⟨["temperate_humid", "temperate_dry"], ["medium"], ["artificial", "hybrid"], 15, 23, 55, 70, 240, 5⟩),
  ("Red Lettuce", ⟨["temperate_humid"], ["medium"], ["artificial", "hybrid"], 16, 24, 50, 68, 210, 4⟩),
  ("Romaine Lettuce", ⟨["temperate_humid", "temperate_dry"], ["medium", "high"], ["artificial", "hybrid"], 15, 24, 55, 70, 215, 5⟩),
  ("Spinach", ⟨["temperate_humid", "cold"], ["medium", "high"], ["natural", "artificial", "hybrid"], 12, 22, 60, 75, 180, 3⟩),
  ("Swiss Chard", ⟨["temperate_humid", "temperate_dry"], ["medium", "high"], ["artificial", "hybrid"], 16, 26, 55, 70, 225, 5⟩),
  ("Tatsoi", ⟨["temperate_humid", "cold"], ["medium"], ["artificial", "hybrid"], 12, 22, 60, 75, 200, 3⟩),
  ("Turnip Greens", ⟨["temperate_humid", "cold"], ["medium"], ["artificial", "hybrid"], 14, 24, 58, 72, 185, 4⟩),
  ("Watercress", ⟨["temperate_humid"], ["high"], ["artificial", "hybrid"], 12, 20, 70, 85, 280, 3⟩),
  ("Anise", ⟨["temperate_humid", "tropical_dry"], ["low", "medium"], ["artificial", "hybrid"], 18, 28, 45, 65, 320, 2⟩),
  ("Basil", ⟨["temperate_humid", "tropical_humid"], ["medium"], ["artificial", "hybrid"], 18, 26, 50, 70, 350, 2⟩),
  ("Bay Leaves", ⟨["temperate_humid", "tropical_dry"], ["low"], ["artificial", "hybrid"], 20, 28, 40, 60, 450, 5⟩),
  ("Chervil", ⟨["temperate_humid"], ["medium"], ["artificial", "hybrid"], 15, 22, 55, 70, 340, 2⟩)]

def crop_profiles_2 : List (String × CropProfile) := [
  ("Chives", ⟨["temperate_humid", "cold"], ["medium"], ["artificial", "hybrid"], 12, 24, 50, 70, 280, 1⟩),
  ("Cilantro", ⟨["temperate_humid", "temperate_dry"], ["medium"], ["artificial", "hybrid"], 16, 24, 50, 65, 290, 2⟩),
  ("Dill", ⟨["temperate_humid"], ["medium"], ["artificial", "hybrid"], 16, 25, 50, 65, 310, 2⟩),
  ("Fennel", ⟨["temperate_humid", "temperate_dry"], ["medium"], ["artificial", "hybrid"], 18, 26, 55, 70, 330, 3⟩),
  ("Herbs", ⟨["temperate_humid", "temperate_dry", "tropical_dry"], ["low", "medium"], ["artificial", "hybrid"], 18, 28, 45, 65, 300, 2⟩),
  ("Lavender", ⟨["temperate_dry", "tropical_dry"], ["low"], ["artificial", "hybrid"], 20, 30, 40, 60, 380, 3⟩),
  ("Lemon Balm", ⟨["temperate_humid"], ["medium"], ["artificial", "hybrid"], 18, 26, 55, 70, 320, 2⟩),
  ("Lemon Thyme", ⟨["temperate_humid", "temperate_dry"], ["low", "medium"], ["artificial", "hybrid"], 18, 28, 45, 65, 340, 2⟩),
  ("Marjoram", ⟨["temperate_humid", "temperate_dry"], ["low", "medium"], ["artificial", "hybrid"], 20, 28, 45, 65, 350, 2⟩),
  ("Mint", ⟨["temperate_humid"], ["medium", "high"], ["artificial", "hybrid"], 16, 26, 60, 75, 300, 2⟩),
  ("Oregano", ⟨["temperate_humid", "tropical_dry"], ["low", "medium"], ["artificial", "hybrid"], 18, 28, 45, 65, 330, 2⟩),
  ("Parsley", ⟨["temperate_humid"], ["medium"], ["artificial", "hybrid"], 16, 24, 55, 70, 290, 2⟩),
  ("Peppermint", ⟨["temperate_humid"], ["medium", "high"], ["artificial", "hybrid"], 16, 26, 60, 75, 310, 2⟩),
  ("Rosemary", ⟨["temperate_dry", "tropical_dry"], ["low"], ["artificial", "hybrid"], 20, 30, 40, 60, 400, 3⟩),
  ("Sage", ⟨["temperate_humid", "temperate_dry"], ["low", "medium"], ["artificial", "hybrid"], 18, 28, 45, 65, 360, 2⟩),
  ("Spearmint", ⟨["temperate_humid"], ["medium", "high"], ["artificial", "hybrid"], 16, 26, 60, 75, 300, 2⟩),
  ("Tarragon", ⟨["temperate_humid"], ["medium"], ["artificial", "hybrid"], 18, 26, 50, 68, 380, 2⟩),
  ("Thai Basil", ⟨["tropical_humid"], ["medium"], ["artificial", "hybrid"], 22, 30, 60, 75, 370, 2⟩),
  ("Thyme", ⟨["temperate_humid", "temperate_dry"], ["low", "medium"], ["artificial", "hybrid"], 18, 28, 45, 65, 340, 2⟩),
  ("Alfalfa Microgreens", ⟨["temperate_humid", "temperate_dry"], ["medium"], ["artificial", "hybrid"], 18, 26, 50, 70, 380, 1⟩),
  ("Arugula Microgreens", ⟨["temperate_humid"], ["medium"], ["artificial", "hybrid"], 16, 24, 55, 70, 400, 1⟩),
  ("Beet Microgreens", ⟨["temperate_humid", "cold"], ["medium"], ["artificial", "hybrid"], 14, 24, 60, 75, 420, 1⟩),
  ("Broccoli Microgreens", ⟨["temperate_humid"], ["medium"], ["artificial", "hybrid"], 16, 26, 55, 70, 450, 1⟩),
  ("Cabbage Microgreens", ⟨["temperate_humid", "cold"], ["medium"], ["artificial", "hybrid"], 14, 24, 60, 75, 410, 1⟩),
  ("Chia Microgreens", ⟨["temperate_humid", "tropical_humid"], ["medium", "high"], ["artificial", "hybrid"], 18, 28, 60, 80, 480, 1⟩),
  ("Cilantro Microgreens", ⟨["temperate_humid"], ["medium"], ["artificial", "hybrid"], 16, 24, 50, 68, 440, 1⟩),
  ("Kale Microgreens", ⟨["temperate_humid", "cold"], ["medium"], ["artificial", "hybrid"], 14, 24, 55, 72, 430, 1⟩),
  ("Microgreens", ⟨["temperate_humid", "temperate_dry", "tropical_humid", "tropical_dry"], ["medium", "high"], ["artificial", "hybrid"], 16, 26, 50, 80, 400, 1⟩)]

def crop_profiles_3 : List (String × CropProfile) := [
  ("Mustard Microgreens", ⟨["temperate_humid"], ["medium"], ["artificial", "hybrid"], 16, 24, 55, 70, 390, 1⟩),
  ("Pea Microgreens", ⟨["temperate_humid", "cold"], ["medium"], ["artificial", "hybrid"], 14, 22, 60, 75, 360, 1⟩),
  ("Radish Microgreens", ⟨["temperate_humid"], ["medium"], ["artificial", "hybrid"], 16, 24, 55, 70, 370, 1⟩),
  ("Sunflower Microgreens", ⟨["temperate_humid", "temperate_dry"], ["medium"], ["artificial", "hybrid"], 18, 26, 50, 68, 350, 1⟩),
  ("Wheatgrass", ⟨["temperate_humid"], ["medium", "high"], ["artificial", "hybrid"], 16, 24, 60, 75, 320, 1⟩),
  ("Artichokes", ⟨["temperate_humid", "temperate_dry"], ["medium", "high"], ["artificial", "hybrid"], 16, 24, 55, 70, 550, 20⟩),
  ("Beans", ⟨["temperate_humid", "tropical_humid"], ["medium", "high"], ["artificial", "hybrid"], 18, 28, 60, 75, 380, 8⟩),
  ("Bell Peppers", ⟨["tropical_humid", "tropical_dry"], ["medium", "high"], ["artificial", "hybrid"], 20, 28, 55, 70, 480, 10⟩),
  ("Cherry Tomatoes", ⟨["temperate_humid", "tropical_humid"], ["high"], ["artificial", "hybrid"], 18, 26, 60, 75, 450, 8⟩),
  ("Chili Peppers", ⟨["tropical_humid", "tropical_dry"], ["medium"], ["artificial", "hybrid"], 22, 32, 50, 68, 420, 6⟩),
  ("Cucumbers", ⟨["temperate_humid", "tropical_humid"], ["high"], ["artificial", "hybrid"], 20, 28, 65, 80, 400, 12⟩),
  ("Eggplant", ⟨["tropical_humid", "tropical_dry"], ["medium", "high"], ["artificial", "hybrid"], 22, 30, 60, 75, 520, 15⟩),
  ("Green Beans", ⟨["temperate_humid", "tropical_humid"], ["medium"], ["artificial", "hybrid"], 18, 26, 55, 70, 360, 8⟩),
  ("Hot Peppers", ⟨["tropical_humid", "tropical_dry"], ["low", "medium"], ["artificial", "hybrid"], 24, 32, 45, 65, 400, 5⟩),
  ("Okra", ⟨["tropical_humid", "tropical_dry"], ["medium"], ["artificial", "hybrid"], 24, 32, 55, 70, 380, 10⟩),
  ("Peas", ⟨["temperate_humid", "cold"], ["medium"], ["artificial", "hybrid"], 12, 22, 60, 75, 340, 6⟩),
  ("Peppers", ⟨["tropical_humid", "tropical_dry"], ["medium", "high"], ["artificial", "hybrid"], 22, 30, 55, 70, 450, 8⟩),
  ("Snow Peas", ⟨["temperate_humid", "cold"], ["medium"], ["artificial", "hybrid"], 12, 20, 65, 75, 350, 6⟩),
  ("Sweet Peppers", ⟨["tropical_humid", "temperate_humid"], ["medium", "high"], ["artificial", "hybrid"], 20, 28, 55, 70, 460, 9⟩),
  ("Tomatoes", ⟨["temperate_humid", "tropical_humid"], ["high"], ["artificial", "hybrid"], 20, 28, 60, 75, 500, 10⟩),
  ("Zucchini", ⟨["temperate_humid", "tropical_humid"], ["medium", "high"], ["artificial", "hybrid"], 18, 28, 60, 75, 420, 15⟩),
  ("Blueberries", ⟨["temperate_humid", "cold"], ["medium", "high"], ["artificial", "hybrid"], 12, 24, 60, 75, 800, 25⟩),
  ("Cranberries", ⟨["cold", "temperate_humid"], ["high"], ["artificial", "hybrid"], 8, 18, 70, 85, 900, 30⟩),
  ("Currants", ⟨["cold", "temperate_humid"], ["medium"], ["artificial", "hybrid"], 10, 22, 60, 75, 650, 20⟩),
  ("Elderberries", ⟨["temperate_humid"], ["medium"], ["artificial", "hybrid"], 16, 26, 55, 70, 720, 35⟩),
  ("Gooseberries", ⟨["cold", "temperate_humid"], ["medium"], ["artificial", "hybrid"], 10, 20, 60, 75, 680, 20⟩),
  ("Goji Berries", ⟨["temperate_dry", "cold"], ["low", "medium"], ["artificial", "hybrid"], 12, 26, 45, 65, 750, 25⟩),
  ("Grapes", ⟨["temperate_humid", "temperate_dry"], ["medium"], ["artificial", "hybrid"], 18, 28, 50, 70, 950, 40⟩)]

def crop_profiles_4 : List (String × CropProfile) := [
  ("Kiwi", ⟨["temperate_humid"], ["medium", "high"], ["artificial", "hybrid"], 16, 26, 60, 75, 850, 35⟩),
  ("Lemons", ⟨["tropical_dry", "temperate_dry"], ["medium"], ["artificial", "hybrid"], 18, 30, 45, 65, 1000, 50⟩),
  ("Limes", ⟨["tropical_humid", "tropical_dry"], ["medium"], ["artificial", "hybrid"], 20, 32, 50, 70, 950, 45⟩),
  ("Oranges", ⟨["tropical_dry", "temperate_dry"], ["medium"], ["artificial", "hybrid"], 18, 30, 45, 65, 1100, 60⟩),
  ("Passion Fruit", ⟨["tropical_humid"], ["medium", "high"], ["artificial", "hybrid"], 22, 30, 65, 80, 780, 30⟩),
  ("Raspberries", ⟨["temperate_humid", "cold"], ["medium"], ["artificial", "hybrid"], 14, 24, 60, 75, 720, 20⟩),
  ("Strawberries", ⟨["temperate_humid", "temperate_dry"], ["medium", "high"], ["artificial", "hybrid"], 16, 24, 60, 75, 600, 15⟩),
  ("Beets", ⟨["temperate_humid", "cold"], ["medium"], ["artificial", "hybrid"], 12, 22, 60, 75, 280, 6⟩),
  ("Carrots", ⟨["temperate_humid", "temperate_dry"], ["medium"], ["artificial", "hybrid"], 14, 24, 55, 70, 300, 8⟩),
  ("Daikon Radish", ⟨["temperate_humid", "cold"], ["medium"], ["artificial", "hybrid"], 12, 22, 60, 75, 260, 10⟩),
  ("Garlic", ⟨["temperate_humid", "temperate_dry"], ["low", "medium"], ["artificial", "hybrid"], 16, 26, 50, 65, 420, 3⟩),
  ("Ginger", ⟨["tropical_humid"], ["medium", "high"], ["artificial", "hybrid"], 22, 30, 70, 85, 580, 8⟩),
  ("Onions", ⟨["temperate_humid", "temperate_dry"], ["medium"], ["artificial", "hybrid"], 16, 26, 55, 70, 320, 6⟩),
  ("Potatoes", ⟨["temperate_humid", "cold"], ["medium"], ["artificial", "hybrid"], 14, 24, 60, 75, 380, 15⟩),
  ("Radishes", ⟨["temperate_humid", "cold"], ["medium"], ["artificial", "hybrid"], 12, 22, 60, 75, 220, 3⟩),
  ("Sweet Potatoes", ⟨["tropical_humid", "tropical_dry"], ["medium"], ["artificial", "hybrid"], 20, 30, 60, 75, 420, 18⟩),
  ("Turnips", ⟨["temperate_humid", "cold"], ["medium"], ["artificial", "hybrid"], 12, 22, 60, 75, 240, 5⟩),
  ("Asparagus", ⟨["temperate_humid"], ["medium", "high"], ["artificial", "hybrid"], 16, 24, 60, 75, 650, 25⟩),
  ("Broccoli", ⟨["temperate_humid", "cold"], ["medium", "high"], ["artificial", "hybrid"], 14, 22, 65, 80, 380, 10⟩),
  ("Brussels Sprouts", ⟨["cold", "temperate_humid"], ["medium", "high"], ["artificial", "hybrid"], 10, 20, 65, 80, 420, 12⟩),
  ("Cauliflower", ⟨["temperate_humid", "cold"], ["medium", "high"], ["artificial", "hybrid"], 14, 22, 65, 80, 400, 12⟩),
  ("Celery", ⟨["temperate_humid"], ["high"], ["artificial", "hybrid"], 16, 24, 70, 85, 450, 8⟩),
  ("Corn", ⟨["temperate_humid", "tropical_humid"], ["medium", "high"], ["artificial", "hybrid"], 18, 30, 60, 75, 520, 30⟩),
  ("Leeks", ⟨["temperate_humid", "cold"], ["medium"], ["artificial", "hybrid"], 14, 24, 60, 75, 340, 8⟩),
  ("Mushrooms", ⟨["temperate_humid"], ["high"], ["artificial"], 16, 24, 80, 95, 680, 10⟩),
  ("Scallions", ⟨["temperate_humid", "temperate_dry"], ["medium"], ["artificial", "hybrid"], 16, 26, 55, 70, 280, 2⟩),
  ("Shallots", ⟨["temperate_humid", "temperate_dry"], ["low", "medium"], ["artificial", "hybrid"], 16, 26, 50, 65, 360, 4⟩)]

/-- The static `crop_profiles` dict of `generate_crop_recommendation_data`
(split into chunks only to keep elaboration fast). -/
def crop_profiles : List (String × CropProfile) :=
  crop_profiles_1 ++ crop_profiles_2 ++ crop_profiles_3 ++ crop_profiles_4

def climate_zones : List String :=
  ["cold", "temperate_humid", "temperate_dry", "tropical_humid", "tropical_dry"]

def water_levels : List String := ["low", "medium", "high"]

def light_types : List String := ["natural", "artificial", "hybrid"]

/-- One training row produced by `generate_crop_recommendation_data`. -/
structure Sample where
  climate_zone : String
  water_availability : String
  light_access : String
  area_size : ℚ
  budget_per_sqm : ℚ
  temperature : ℚ
  humidity : ℚ
  crop : String
deriving DecidableEq

/-- The random draws consumed by one positive sample: three
`random.choice` indices, one `randint` draw, three `random()` values in
`[0, 1)`. -/
structure PosDraw where
  iClimate : ℕ
  iWater : ℕ
  iLight : ℕ
  kHumidity : ℕ
  rTemp : ℚ
  rArea : ℚ
  rBudget : ℚ

/-- One positive ("suitable conditions") sample for `crop`, as built in
the first inner loop of `generate_crop_recommendation_data`; `none`
models a raised exception (empty choice sequence / bad `randint`
bounds). -/
def generatePositiveSample (crop : String) (p : CropProfile) (d : PosDraw) :
    Option Sample :=
  match randomChoice p.preferred_climate d.iClimate,
      randomChoice p.water_needs d.iWater,
      randomChoice p.light_tolerance d.iLight,
      randint p.humidity_min p.humidity_max d.kHumidity with
  | some climate, some water, some light, some hum =>
      some { climate_zone := climate
             water_availability := water
             light_access := light
             area_size := uniformDraw p.min_area 200 d.rArea
             budget_per_sqm := uniformDraw p.min_budget_per_sqm 1000 d.rBudget
             temperature := uniformDraw p.temp_min p.temp_max d.rTemp
             humidity := (hum : ℚ)
             crop := crop }
  | _, _, _, _ => none

/-- The random draws consumed by one negative sample; `branch` is the
`random.choice([True, False])` picking the low or high temperature
band. -/
structure NegDraw where
  iClimate : ℕ
  iWater : ℕ
  iLight : ℕ
  branch : Bool
  kHumidity : ℕ
  rTemp : ℚ
  rArea : ℚ
  rBudget : ℚ

/-- One negative ("less suitable conditions") sample for `crop`, as
built in the second inner loop of `generate_crop_recommendation_data`. -/
def generateNegativeSample (crop : String) (p : CropProfile) (d : NegDraw) :
    Option Sample :=
  match randomChoice (climate_zones.filter
          (fun c => !(p.preferred_climate.contains c))) d.iClimate,
      randomChoice (water_levels.filter
          (fun w => !(p.water_needs.contains w))) d.iWater,
      (if !(p.light_tolerance.contains "natural") then some "natural"
       else randomChoice light_types d.iLight),
      randint 20 95 d.kHumidity with
  | some climate, some water, some light, some hum =>
      some { climate_zone := climate
             water_availability := water
             light_access := light
             area_size := uniformDraw 1 300 d.rArea
             budget_per_sqm := uniformDraw 50 ((p.min_budget_per_sqm : ℚ) * (8/10)) d.rBudget
             temperature :=
               if d.branch then uniformDraw 5 ((p.temp_min : ℚ) - 2) d.rTemp
               else uniformDraw ((p.temp_max : ℚ) + 3) 35 d.rTemp
             humidity := (hum : ℚ)
             crop := crop }
  | _, _, _, _ => none

/-- The fitted `DecisionTreeClassifier` viewed abstractly: its
`classes_` array and its `predict_proba` on a feature vector. -/
structure Classifier where
  classes : List String
  predictProba : List ℚ → List ℚ

/-- The members of a `VerticalFarmingAI` instance that inference reads:
the `label_encoders` dict (keys `climate_zone`, `water_availability`,
`light_access`, `crop`; a missing key is `none`, and an encoder
returning `none` on a string models the `ValueError` on an unseen
category), the `scalers` dict (key `yield_features`), and the three
fitted models (`none` = still untrained). -/
structure FarmModel where
  climateEncoder : Option (String → Option ℤ)
  waterEncoder : Option (String → Option ℤ)
  lightEncoder : Option (String → Option ℤ)
  cropEncoder : Option (String → Option ℤ)
  yieldScaler : Option (List ℚ → List ℚ)
  cropRecommender : Option Classifier
  yieldPredictor : Option (List ℚ → ℚ)
  growthPredictor : Option (List ℚ → ℚ)

/-- The `farm_params` dict as read by `recommend_crops` / `predict_yield`. -/
structure FarmParams where
  area_size : ℚ
  budget : ℚ
  water_availability : String
  light_access : String

/-- The `weather_data` dict as read by the inference methods (`temp` and
`humidity`, with their `.get` defaults already resolved). -/
structure WeatherData where
  temp : ℚ
  humidity : ℚ

/-- Embeds `VerticalFarmingAI._determine_climate_zone`. -/
def determineClimateZone (wd : WeatherData) : String :=
  if wd.temp < 10 then "cold"
  else if wd.temp < 25 then
    (if 70 < wd.humidity then "temperate_humid" else "temperate_dry")
  else
    (if 70 < wd.humidity then "tropical_humid" else "tropical_dry")

/-- Embeds `VerticalFarmingAI._calculate_light_intensity` (dict `.get` with
default 300). -/
def calculateLightIntensity (la : String) : ℚ :=
  if la = "natural" then 300
  else if la = "artificial" then 400
  else if la = "hybrid" then 500
  else 300

/-- Embeds `VerticalFarmingAI._estimate_nutrients_level`. -/
def estimateNutrientsLevel (budget : ℚ) : ℚ :=
  if budget < 1000 then 5 else if budget < 5000 then 7 else 9

/-- Embeds `VerticalFarmingAI._get_water_frequency` (dict `.get` with
default 3). -/
def getWaterFrequency (wa : String) : ℚ :=
  if wa = "low" then 2
  else if wa = "medium" then 4
  else if wa = "high" then 6
  else 3

/-- Embeds `VerticalFarmingAI._get_suitability_level`. -/
def getSuitabilityLevel (confidence : ℚ) : String :=
  if confidence > 0.7 then "Excellent"
  else if confidence > 0.5 then "Good"
  else if confidence > 0.3 then "Fair"
  else "Poor"

/-- One entry of the list `VerticalFarmingAI._get_default_recommendations` returns. -/
structure Recommendation where
  crop : String
  confidence : ℚ
  suitability : String
deriving DecidableEq

def getDefaultRecommendations : List Recommendation :=
  [{ crop := "Lettuce", confidence := 85, suitability := "Excellent" },
   { crop := "Spinach", confidence := 80, suitability := "Excellent" },
   { crop := "Kale", confidence := 75, suitability := "Good" },
   { crop := "Herbs", confidence := 70, suitability := "Good" },
   { crop := "Microgreens", confidence := 65, suitability := "Good" }]

/-- The `base_yields` dict of
`VerticalFarmingAI._get_default_yield_prediction`. -/
def base_yields : List (String × ℚ) :=
  [("Lettuce", 25), ("Spinach", 20), ("Kale", 15), ("Herbs", 10),
   ("Microgreens", 30), ("Tomatoes", 40), ("Peppers", 35), ("Cucumbers", 45)]

/-- The value an estimate returns. -/
structure YieldResult where
  yield_kg_per_sqm : ℚ
  total_yield_kg : ℚ
  growth_time_days : ℚ
  harvests_per_year : ℚ
deriving DecidableEq

/-- Embeds `VerticalFarmingAI._get_default_yield_prediction`. -/
def getDefaultYieldPrediction (crop : String) (area_size : ℚ) : YieldResult :=
  let base_yield := ((base_yields.lookup crop).getD 20)
  { yield_kg_per_sqm := base_yield
    total_yield_kg := roundTo 2 (base_yield * area_size)
    growth_time_days := 45
    harvests_per_year := 81/10 }

/-- Encoding of one categorical feature in `recommend_crops`: a missing
encoder or an unseen value both yield the default code 0. -/
def encodeCat (enc : Option (String → Option ℤ)) (v : String) : ℚ :=
  match enc with
  | some f => ((f v).getD 0 : ℤ)
  | none => 0

/-- The `self.label_encoders['crop']` handling in `predict_yield`: unknown
crop (`ValueError`) or missing encoder both give code 0. -/
def cropEncoded (m : FarmModel) (crop : String) : ℚ :=
  match m.cropEncoder with
  | some f => ((f crop).getD 0 : ℤ)
  | none => 0

/-- The `input_features` array of `predict_yield`. -/
def yieldInputFeatures (m : FarmModel) (crop : String) (fp : FarmParams)
    (wd : WeatherData) : List ℚ :=
  [cropEncoded m crop, fp.area_size,
   calculateLightIntensity fp.light_access,
   estimateNutrientsLevel fp.budget,
   getWaterFrequency fp.water_availability,
   wd.temp, wd.humidity, 400]

/-- The `X_scaled` value in `predict_yield`: the scaler is applied when
`'yield_features' in self.scalers`. -/
def scaledYieldFeatures (m : FarmModel) (crop : String) (fp : FarmParams)
    (wd : WeatherData) : List ℚ :=
  match m.yieldScaler with
  | some sc => sc (yieldInputFeatures m crop fp wd)
  | none => yieldInputFeatures m crop fp wd

/-- The result record built on the trained-model branch of
`predict_yield` from the two raw regressor outputs `py` (yield) and
`pg` (growth days). -/
def mlYieldResult (py pg area_size : ℚ) : YieldResult :=
  { yield_kg_per_sqm := max 0 (roundTo 2 py)
    total_yield_kg := max 0 (roundTo 2 (py * area_size))
    growth_time_days := max 30 ((roundHalfEven pg : ℤ) : ℚ)
    harvests_per_year := max 1 (roundTo 1 (365 / max 30 pg)) }

/-- Embeds `VerticalFarmingAI.predict_yield`. -/
def predictYield (m : FarmModel) (crop : String) (fp : FarmParams)
    (wd : WeatherData) : YieldResult :=
  match m.yieldPredictor, m.growthPredictor with
  | some yp, some gp =>
      mlYieldResult (yp (scaledYieldFeatures m crop fp wd))
        (gp (scaledYieldFeatures m crop fp wd)) fp.area_size
  | _, _ => getDefaultYieldPrediction crop fp.area_size

/-- Embeds `predict_yield` as a method call on the instance state: the method
reads `self` but never writes it, so the state passes through
unchanged. -/
def predictYieldCall (m : FarmModel) (crop : String) (fp : FarmParams)
    (wd : WeatherData) : YieldResult × FarmModel :=
  (predictYield m crop fp wd, m)

/-- Descending-probability order on `(class, probability)` pairs. -/
def probDesc (a b : String × ℚ) : Prop := b.2 ≤ a.2

instance : DecidableRel probDesc :=
  fun a b => inferInstanceAs (Decidable (b.2 ≤ a.2))

instance : IsTotal (String × ℚ) probDesc :=
  ⟨fun a b => le_total b.2 a.2⟩

instance : IsTrans (String × ℚ) probDesc :=
  ⟨fun _ _ _ h1 h2 => le_trans h2 h1⟩

/-- The `input_features` array of `recommend_crops` (note the climate
zone is re-derived from the weather, and the budget is divided by the
area). -/
def recommendInputFeatures (m : FarmModel) (fp : FarmParams)
    (wd : WeatherData) : List ℚ :=
  [encodeCat m.climateEncoder (determineClimateZone wd),
   encodeCat m.waterEncoder fp.water_availability,
   encodeCat m.lightEncoder fp.light_access,
   fp.area_size, fp.budget / fp.area_size, wd.temp, wd.humidity]

/-- Embeds `VerticalFarmingAI.recommend_crops`; `location_data` is the first
positional argument of the Python method; its body never reads it.
The top-5 selection `np.argsort(probabilities)[-5:][::-1]` indexed into
`classes_` is modelled as sorting the `(class, probability)` pairs by
descending probability and taking the first five. -/
def recommendCrops (m : FarmModel) (location_data : String) (fp : FarmParams)
    (wd : WeatherData) : List Recommendation :=
  match m.cropRecommender with
  | some clf =>
      let probs := clf.predictProba (recommendInputFeatures m fp wd)
      ((List.insertionSort probDesc (clf.classes.zip probs)).take 5).map
        (fun cp => { crop := cp.1
                     confidence := roundTo 2 (cp.2 * 100)
                     suitability := getSuitabilityLevel cp.2 })
  | none => getDefaultRecommendations

/-! Concrete instances used to exercise the definitions. -/

/-- The spec's concrete scenario parameters: area 50, budget 5000,
medium water, artificial light. -/
def fpScenario : FarmParams :=
  { area_size := 50, budget := 5000
    water_availability := "medium", light_access := "artificial" }

/-- A small-area variant of the scenario parameters. -/
def fpSmall : FarmParams :=
  { area_size := 3, budget := 5000
    water_availability := "medium", light_access := "artificial" }

def wdScenario : WeatherData := { temp := 20, humidity := 60 }

/-- A crop label encoder whose training data contained only
`"Lettuce"`. -/
def lettuceOnlyEncoder : String → Option ℤ :=
  fun s => [("Lettuce", (0 : ℤ))].lookup s

/-- A fully trained model whose crop encoder has never seen most crop
names; the regressors are concrete constant functions. -/
def mUnknownCrop : FarmModel :=
  { climateEncoder := none, waterEncoder := none, lightEncoder := none
    cropEncoder := some lettuceOnlyEncoder
    yieldScaler := some id
    cropRecommender := none
    yieldPredictor := some (fun _ => 5)
    growthPredictor := some (fun _ => 100) }

/-- A trained model whose growth regressor returns the non-integer
value 45.6 on every input. -/
def mGrowthFrac : FarmModel :=
  { climateEncoder := none, waterEncoder := none, lightEncoder := none
    cropEncoder := none, yieldScaler := none, cropRecommender := none
    yieldPredictor := some (fun _ => 3)
    growthPredictor := some (fun _ => 228/5) }

/-- A trained model whose yield regressor returns the three-decimal
value 2.513 on every input. -/
def mYieldFrac : FarmModel :=
  { climateEncoder := none, waterEncoder := none, lightEncoder := none
    cropEncoder := none, yieldScaler := none, cropRecommender := none
    yieldPredictor := some (fun _ => 2513/1000)
    growthPredictor := some (fun _ => 40) }

/-- A trained model whose yield regressor returns the two-decimal
value 2.5 on every input. -/
def mYieldExact : FarmModel :=
  { climateEncoder := none, waterEncoder := none, lightEncoder := none
    cropEncoder := none, yieldScaler := none, cropRecommender := none
    yieldPredictor := some (fun _ => 5/2)
    growthPredictor := some (fun _ => 40) }

/-- A two-class fitted classifier with constant probabilities. -/
def clfTwo : Classifier :=
  { classes := ["Lettuce", "Kale"]
    predictProba := fun _ => [3/10, 7/10] }

/-- A model whose recommender is `clfTwo` and whose encoders have seen
nothing (every category is unknown at inference). -/
def mRecommender : FarmModel :=
  { climateEncoder := none, waterEncoder := none, lightEncoder := none
    cropEncoder := none, yieldScaler := none
    cropRecommender := some clfTwo
    yieldPredictor := none, growthPredictor := none }

/-- The `crop_profiles` entry for `"Arugula"`. -/
def arugulaProfile : CropProfile :=
  ⟨["temperate_humid", "temperate_dry"], ["medium"],
   ["natural", "artificial", "hybrid"], 14, 22, 55, 70, 190, 3⟩

/-- The `crop_profiles` entry for `"Chili Peppers"` (its `temp_range`
maximum, 32, is the largest in the table and makes `max + 3`
coincide with the upper sampling bound 35). -/
def chiliProfile : CropProfile :=
  ⟨["tropical_humid", "tropical_dry"], ["medium"],
   ["artificial", "hybrid"], 22, 32, 50, 68, 420, 6⟩

/-- The negative-sample draw with every random value at its lowest:
both choice indices 0, high-temperature branch, `random() = 0`. -/
def negDrawZero : NegDraw :=
  { iClimate := 0, iWater := 0, iLight := 0, branch := false
    kHumidity := 0, rTemp := 0, rArea := 0, rBudget := 0 }

/-- The positive-sample draw with every random value at its lowest. -/
def posDrawZero : PosDraw :=
  { iClimate := 0, iWater := 0, iLight := 0
    kHumidity := 0, rTemp := 0, rArea := 0, rBudget := 0 }

/-- The sample `generatePositiveSample "Arugula" arugulaProfile
posDrawZero` produces. -/
def arugulaPosSample : Sample :=
  ⟨"temperate_humid", "medium", "natural", 3, 190, 14, 55, "Arugula"⟩

/-- The sample `generateNegativeSample "Arugula" arugulaProfile` yields
on the low-temperature branch with all draws zero. -/
def arugulaNegSample : Sample :=
  ⟨"cold", "low", "natural", 1, 50, 5, 20, "Arugula"⟩

/-- Same as `negDrawZero` but with the low-temperature branch. -/
def negDrawLow : NegDraw :=
  { iClimate := 0, iWater := 0, iLight := 0, branch := true
    kHumidity := 0, rTemp := 0, rArea := 0, rBudget := 0 }

/-- The sample `generateNegativeSample "Chili Peppers" chiliProfile
negDrawZero` produces: its temperature is exactly 35 = temp_max + 3. -/
def chiliNegSample : Sample :=
  ⟨"cold", "low", "natural", 1, 50, 35, 20, "Chili Peppers"⟩

/-! Helper lemmas. -/

theorem floor_le_roundHalfEven (q : ℚ) : ⌊q⌋ ≤ roundHalfEven q := by
  unfold roundHalfEven; split_ifs <;> omega

theorem roundHalfEven_le_floor_add_one (q : ℚ) : roundHalfEven q ≤ ⌊q⌋ + 1 := by
  unfold roundHalfEven; split_ifs <;> omega

theorem roundHalfEven_mono {q r : ℚ} (h : q ≤ r) :
    roundHalfEven q ≤ roundHalfEven r := by
  rcases lt_or_eq_of_le (Int.floor_le_floor h) with hf | hf
  · calc roundHalfEven q ≤ ⌊q⌋ + 1 := roundHalfEven_le_floor_add_one q
      _ ≤ ⌊r⌋ := by omega
      _ ≤ roundHalfEven r := floor_le_roundHalfEven r
  · have hq : (⌊q⌋ : ℚ) = (⌊r⌋ : ℚ) := by exact_mod_cast hf
    unfold roundHalfEven
    rw [hf]
    split_ifs <;> first | omega | linarith

theorem roundHalfEven_intCast (k : ℤ) : roundHalfEven (k : ℚ) = k := by
  unfold roundHalfEven
  rw [Int.floor_intCast]
  norm_num

theorem roundTo_mono (n : ℕ) {q r : ℚ} (h : q ≤ r) :
    roundTo n q ≤ roundTo n r := by
  unfold roundTo
  have h2 : q * 10 ^ n ≤ r * 10 ^ n :=
    mul_le_mul_of_nonneg_right h (by positivity)
  have h3 : ((roundHalfEven (q * 10 ^ n) : ℤ) : ℚ) ≤
      ((roundHalfEven (r * 10 ^ n) : ℤ) : ℚ) := by
    exact_mod_cast roundHalfEven_mono h2
  exact (div_le_div_iff_of_pos_right (by positivity)).mpr h3

theorem roundTo_eq_self {n : ℕ} {q : ℚ} (h : (q * 10 ^ n).den = 1) :
    roundTo n q = q := by
  unfold roundTo
  have h1 : (((q * 10 ^ n).num : ℤ) : ℚ) = q * 10 ^ n :=
    Rat.coe_int_num_of_den_eq_one h
  rw [← h1, roundHalfEven_intCast, h1]
  field_simp

theorem uniformDraw_lower {a b r : ℚ} (hab : a ≤ b) (h0 : 0 ≤ r) :
    a ≤ uniformDraw a b r := by
  unfold uniformDraw
  nlinarith

theorem uniformDraw_upper {a b r : ℚ} (hab : a ≤ b) (h1 : r < 1) :
    uniformDraw a b r ≤ b := by
  unfold uniformDraw
  nlinarith

theorem randomChoice_mem {l : List α} {i : ℕ} {a : α}
    (h : randomChoice l i = some a) : a ∈ l :=
  List.getElem?_mem h

theorem crop_profiles_temp_bounds :
    ∀ cp ∈ crop_profiles,
      7 ≤ cp.2.temp_min ∧ cp.2.temp_max ≤ 32 ∧ cp.2.temp_min ≤ cp.2.temp_max := by
  decide

theorem base_yields_nonneg (crop : String) :
    0 ≤ (base_yields.lookup crop).getD 20 := by
  rcases h : base_yields.lookup crop with _ | v
  · norm_num
  · obtain ⟨l₁, l₂, heq, -⟩ := List.lookup_eq_some_iff.mp h
    have hmem : (crop, v) ∈ base_yields := by
      rw [heq]; exact List.mem_append_right _ (List.mem_cons_self _ _)
    have hall : ∀ p ∈ base_yields, 0 ≤ p.2 := by decide
    simpa using hall _ hmem

/-! Claim theorems. -/

/-- C5: for every crop in the static profile table and every generated
positive suitability sample for that crop, the sample's climate zone is
in the crop's preferred-climate set, its water availability is in the
crop's water-needs set, its light access is in the crop's
light-tolerance set, its temperature lies in
`[temp_range.min, temp_range.max]`, and its label equals the crop's
name. -/
theorem positive_samples_within_profile :
    ∀ cp ∈ crop_profiles, ∀ d : PosDraw, 0 ≤ d.rTemp → d.rTemp < 1 →
      ∀ s : Sample, generatePositiveSample cp.1 cp.2 d = some s →
        s.climate_zone ∈ cp.2.preferred_climate ∧
        s.water_availability ∈ cp.2.water_needs ∧
        s.light_access ∈ cp.2.light_tolerance ∧
        (cp.2.temp_min : ℚ) ≤ s.temperature ∧
        s.temperature ≤ (cp.2.temp_max : ℚ) ∧
        s.crop = cp.1 := by
  intro cp hcp d h0 h1 s hs
  have htm := (crop_profiles_temp_bounds cp hcp).2.2
  unfold generatePositiveSample at hs
  rcases hc : randomChoice cp.2.preferred_climate d.iClimate with _ | climate <;>
    rw [hc] at hs
  · exact absurd hs (by simp)
  rcases hw : randomChoice cp.2.water_needs d.iWater with _ | water <;>
    rw [hw] at hs
  · exact absurd hs (by simp)
  rcases hl : randomChoice cp.2.light_tolerance d.iLight with _ | light <;>
    rw [hl] at hs
  · exact absurd hs (by simp)
  rcases hh : randint cp.2.humidity_min cp.2.humidity_max d.kHumidity with _ | hum <;>
    rw [hh] at hs
  · exact absurd hs (by simp)
  injection hs with hs
  subst hs
  have htmq : (cp.2.temp_min : ℚ) ≤ (cp.2.temp_max : ℚ) := by exact_mod_cast htm
  exact ⟨randomChoice_mem hc, randomChoice_mem hw, randomChoice_mem hl,
    uniformDraw_lower htmq h0, uniformDraw_upper htmq h1, rfl⟩

/-- C5 witness: the Arugula profile with all draws at zero yields a
sample whose fields indeed sit inside the profile. -/
theorem positive_samples_within_profile_witness :
    arugulaPosSample.climate_zone ∈ arugulaProfile.preferred_climate ∧
    arugulaPosSample.water_availability ∈ arugulaProfile.water_needs ∧
    arugulaPosSample.light_access ∈ arugulaProfile.light_tolerance ∧
    (arugulaProfile.temp_min : ℚ) ≤ arugulaPosSample.temperature ∧
    arugulaPosSample.temperature ≤ (arugulaProfile.temp_max : ℚ) ∧
    arugulaPosSample.crop = "Arugula" :=
  positive_samples_within_profile ("Arugula", arugulaProfile) (by decide)
    posDrawZero (by norm_num [posDrawZero]) (by norm_num [posDrawZero])
    arugulaPosSample (by
      norm_num [generatePositiveSample, randomChoice, randint, uniformDraw,
        arugulaProfile, posDrawZero, arugulaPosSample])

/-- C2 counterexample: for the Chili Peppers profile (temp_range
(22, 32)) the high-band negative draw with `random() = 0` produces the
temperature 35 = temp_max + 3, which is NOT strictly outside
[temp_min − 2, temp_max + 3]. -/
theorem negative_sample_boundary_counterexample :
    ("Chili Peppers", chiliProfile) ∈ crop_profiles ∧
    0 ≤ negDrawZero.rTemp ∧ negDrawZero.rTemp < 1 ∧
    generateNegativeSample "Chili Peppers" chiliProfile negDrawZero =
      some chiliNegSample ∧
    ¬(chiliNegSample.temperature < (chiliProfile.temp_min : ℚ) - 2 ∨
      (chiliProfile.temp_max : ℚ) + 3 < chiliNegSample.temperature) := by
  refine ⟨by decide, by norm_num [negDrawZero], by norm_num [negDrawZero], ?_, ?_⟩
  · norm_num [generateNegativeSample, randomChoice, randint, uniformDraw,
      chiliProfile, negDrawZero, chiliNegSample, climate_zones, water_levels,
      light_types, List.filter]
    simp
  · norm_num [chiliNegSample, chiliProfile]

/-- C2 amended: for every crop in the static profile table and every
generated negative suitability sample for that crop, the sample's
temperature lies outside the open interval
(temp_range.min − 2, temp_range.max + 3): it is ≤ min − 2 or
≥ max + 3 (the endpoints themselves can be hit, so "strictly outside
the closed interval" fails). -/
theorem negative_samples_outside_open_band :
    ∀ cp ∈ crop_profiles, ∀ d : NegDraw, 0 ≤ d.rTemp → d.rTemp < 1 →
      ∀ s : Sample, generateNegativeSample cp.1 cp.2 d = some s →
        s.temperature ≤ (cp.2.temp_min : ℚ) - 2 ∨
        (cp.2.temp_max : ℚ) + 3 ≤ s.temperature := by
  intro cp hcp d h0 h1 s hs
  obtain ⟨h7, h32, -⟩ := crop_profiles_temp_bounds cp hcp
  unfold generateNegativeSample at hs
  rcases hc : randomChoice (climate_zones.filter
      (fun c => !(cp.2.preferred_climate.contains c))) d.iClimate with _ | climate <;>
    rw [hc] at hs
  · exact absurd hs (by simp)
  rcases hw : randomChoice (water_levels.filter
      (fun w => !(cp.2.water_needs.contains w))) d.iWater with _ | water <;>
    rw [hw] at hs
  · exact absurd hs (by simp)
  rcases hl : (if !(cp.2.light_tolerance.contains "natural") then some "natural"
      else randomChoice light_types d.iLight) with _ | light <;>
    rw [hl] at hs
  · exact absurd hs (by simp)
  rcases hh : randint 20 95 d.kHumidity with _ | hum <;> rw [hh] at hs
  · exact absurd hs (by simp)
  injection hs with hs
  subst hs
  by_cases hb : d.branch <;> simp only [hb, if_true, if_false, Bool.false_eq_true]
  · left
    have h5 : (5 : ℚ) ≤ (cp.2.temp_min : ℚ) - 2 := by
      have : (7 : ℚ) ≤ (cp.2.temp_min : ℚ) := by exact_mod_cast h7
      linarith
    simpa using uniformDraw_upper h5 h1
  · right
    have h35 : (cp.2.temp_max : ℚ) + 3 ≤ 35 := by
      have : (cp.2.temp_max : ℚ) ≤ 32 := by exact_mod_cast h32
      linarith
    simpa using uniformDraw_lower h35 h0

/-- C2 witness: the Arugula profile on the low-temperature branch with
all draws zero gives temperature 5 ≤ temp_min − 2 = 12. -/
theorem negative_samples_outside_open_band_witness :
    arugulaNegSample.temperature ≤ (arugulaProfile.temp_min : ℚ) - 2 ∨
    (arugulaProfile.temp_max : ℚ) + 3 ≤ arugulaNegSample.temperature :=
  negative_samples_outside_open_band ("Arugula", arugulaProfile) (by decide)
    negDrawLow (by norm_num [negDrawLow]) (by norm_num [negDrawLow])
    arugulaNegSample (by
      norm_num [generateNegativeSample, randomChoice, randint, uniformDraw,
        arugulaProfile, negDrawLow, arugulaNegSample, climate_zones,
        water_levels, light_types, List.filter]
      simp)

theorem roundHalfEven_eq_of_lt_half {q : ℚ} {n : ℤ} (h1 : (n : ℚ) ≤ q)
    (h2 : q < (n : ℚ) + 1/2) : roundHalfEven q = n := by
  have hf : ⌊q⌋ = n := Int.floor_eq_iff.mpr ⟨h1, by linarith⟩
  unfold roundHalfEven
  rw [hf, if_pos (by linarith)]

theorem roundHalfEven_eq_of_gt_half {q : ℚ} {n : ℤ} (h1 : (n : ℚ) + 1/2 < q)
    (h2 : q < (n : ℚ) + 1) : roundHalfEven q = n + 1 := by
  have hf : ⌊q⌋ = n := Int.floor_eq_iff.mpr ⟨by linarith, by linarith⟩
  unfold roundHalfEven
  rw [hf, if_neg (by linarith), if_pos (by linarith)]

/-- C1 counterexample: a trained model whose crop encoder has never
seen "Dragonfruit" does NOT return the static default table entry —
the regressors are still consulted (here they predict growth 100,
whereas the static entry has growth 45). -/
theorem unknown_crop_counterexample :
    mUnknownCrop.cropEncoder = some lettuceOnlyEncoder ∧
    lettuceOnlyEncoder "Dragonfruit" = none ∧
    mUnknownCrop.yieldPredictor.isSome = true ∧
    mUnknownCrop.growthPredictor.isSome = true ∧
    predictYield mUnknownCrop "Dragonfruit" fpScenario wdScenario ≠
      getDefaultYieldPrediction "Dragonfruit" fpScenario.area_size := by
  refine ⟨rfl, by simp [lettuceOnlyEncoder], rfl, rfl, ?_⟩
  have hml : predictYield mUnknownCrop "Dragonfruit" fpScenario wdScenario =
      mlYieldResult 5 100 50 := by
    simp [predictYield, mUnknownCrop, fpScenario]
  have hrhe : roundHalfEven (100 : ℚ) = 100 := by
    rw [show (100 : ℚ) = ((100 : ℤ) : ℚ) by norm_num]
    exact roundHalfEven_intCast 100
  intro h
  have h2 := congrArg YieldResult.growth_time_days h
  rw [hml] at h2
  simp only [mlYieldResult, getDefaultYieldPrediction, hrhe] at h2
  norm_num at h2

/-- C1 amended: with trained models present, an unknown crop name is
silently encoded with the default code 0 and the yield is predicted by
the trained regressors on that encoding; the static default yield table
is consulted only when a regressor is missing (or an exception
occurs). -/
theorem unknown_crop_uses_default_code (m : FarmModel) (crop : String)
    (fp : FarmParams) (wd : WeatherData) (enc : String → Option ℤ)
    (yp gp : List ℚ → ℚ)
    (henc : m.cropEncoder = some enc) (hunk : enc crop = none)
    (hy : m.yieldPredictor = some yp) (hg : m.growthPredictor = some gp) :
    cropEncoded m crop = 0 ∧
    predictYield m crop fp wd =
      mlYieldResult (yp (scaledYieldFeatures m crop fp wd))
        (gp (scaledYieldFeatures m crop fp wd)) fp.area_size := by
  constructor
  · simp [cropEncoded, henc, hunk]
  · simp [predictYield, hy, hg]

/-- C1 witness: the concrete unknown-crop call above indeed takes the
model path with crop code 0. -/
theorem unknown_crop_uses_default_code_witness :
    cropEncoded mUnknownCrop "Dragonfruit" = 0 ∧
    predictYield mUnknownCrop "Dragonfruit" fpScenario wdScenario =
      mlYieldResult
        ((fun _ => (5 : ℚ)) (scaledYieldFeatures mUnknownCrop "Dragonfruit" fpScenario wdScenario))
        ((fun _ => (100 : ℚ)) (scaledYieldFeatures mUnknownCrop "Dragonfruit" fpScenario wdScenario))
        fpScenario.area_size :=
  unknown_crop_uses_default_code mUnknownCrop "Dragonfruit" fpScenario wdScenario
    lettuceOnlyEncoder (fun _ => 5) (fun _ => 100) rfl (by decide) rfl rfl

/-- C3 counterexample: with the growth regressor predicting 45.6 days,
the returned growth_days is 46 but harvests_per_year is 8.0 =
clamp_min(1, round(365/45.6, 1)), not 7.9 =
clamp_min(1, round(365/46, 1)) as computed from the returned value. -/
theorem harvests_from_returned_growth_counterexample :
    (predictYield mGrowthFrac "Lettuce" fpScenario wdScenario).harvests_per_year ≠
      max 1 (roundTo 1
        (365 / (predictYield mGrowthFrac "Lettuce" fpScenario wdScenario).growth_time_days)) := by
  have hml : predictYield mGrowthFrac "Lettuce" fpScenario wdScenario =
      mlYieldResult 3 (228/5) 50 := by
    simp [predictYield, mGrowthFrac, fpScenario]
  have hrhe : roundHalfEven ((228 : ℚ)/5) = 46 := by
    have := roundHalfEven_eq_of_gt_half (q := (228 : ℚ)/5) (n := 45)
      (by norm_num) (by norm_num)
    rw [this]; norm_num
  rw [hml]
  have hgrowth : (mlYieldResult 3 (228/5) 50).growth_time_days = 46 := by
    simp only [mlYieldResult, hrhe]
    norm_num
  have hharv : (mlYieldResult 3 (228/5) 50).harvests_per_year = 8 := by
    simp only [mlYieldResult]
    have hmax : max (30 : ℚ) (228/5) = 228/5 := by norm_num
    rw [hmax]
    have h10 : (365 : ℚ) / (228/5) * 10 ^ 1 = 9125/114 := by norm_num
    have : roundTo 1 ((365 : ℚ) / (228/5)) = 8 := by
      unfold roundTo
      rw [h10, roundHalfEven_eq_of_lt_half (n := 80) (by norm_num) (by norm_num)]
      norm_num
    rw [this]; norm_num
  rw [hgrowth, hharv]
  have : roundTo 1 ((365 : ℚ) / 46) = 79/10 := by
    unfold roundTo
    rw [show (365 : ℚ) / 46 * 10 ^ 1 = 1825/23 by norm_num,
      roundHalfEven_eq_of_lt_half (n := 79) (by norm_num) (by norm_num)]
    norm_num
  rw [this]
  norm_num

/-- C3 amended: on the trained-model path harvests_per_year is
clamp_min(1, round(365 / max(30, g), 1 decimal)) where g is the raw
(unrounded) growth-regressor output — not the rounded growth_days
returned in the result; on the untrained fallback path the constant
8.1 does equal clamp_min(1, round(365 / growth_days, 1)) for the
returned growth_days = 45. -/
theorem harvests_from_raw_growth (m : FarmModel) (crop : String)
    (fp : FarmParams) (wd : WeatherData) (yp gp : List ℚ → ℚ)
    (hy : m.yieldPredictor = some yp) (hg : m.growthPredictor = some gp) :
    (predictYield m crop fp wd).harvests_per_year =
      max 1 (roundTo 1 (365 / max 30 (gp (scaledYieldFeatures m crop fp wd)))) ∧
    (getDefaultYieldPrediction crop fp.area_size).harvests_per_year =
      max 1 (roundTo 1
        (365 / (getDefaultYieldPrediction crop fp.area_size).growth_time_days)) := by
  constructor
  · simp [predictYield, hy, hg, mlYieldResult]
  · have : roundTo 1 ((365 : ℚ) / 45) = 81/10 := by
      unfold roundTo
      rw [show (365 : ℚ) / 45 * 10 ^ 1 = 730/9 by norm_num,
        roundHalfEven_eq_of_lt_half (n := 81) (by norm_num) (by norm_num)]
      norm_num
    simp only [getDefaultYieldPrediction, this]
    norm_num

/-- C3 witness: the amended harvest formula at the concrete
45.6-days-growth model. -/
theorem harvests_from_raw_growth_witness :
    (predictYield mGrowthFrac "Lettuce" fpScenario wdScenario).harvests_per_year =
      max 1 (roundTo 1 (365 / max 30
        ((fun _ => (228 : ℚ)/5) (scaledYieldFeatures mGrowthFrac "Lettuce" fpScenario wdScenario)))) ∧
    (getDefaultYieldPrediction "Lettuce" fpScenario.area_size).harvests_per_year =
      max 1 (roundTo 1
        (365 / (getDefaultYieldPrediction "Lettuce" fpScenario.area_size).growth_time_days)) :=
  harvests_from_raw_growth mGrowthFrac "Lettuce" fpScenario wdScenario
    (fun _ => 3) (fun _ => 228/5) rfl rfl

/-- C4 counterexample: with the yield regressor predicting 2.513 and
area 3, total_yield is round(2.513 × 3, 2) = 7.54 while
yield_per_area × area = 2.51 × 3 = 7.53: the two are not exactly
equal. -/
theorem total_yield_counterexample :
    (predictYield mYieldFrac "Lettuce" fpSmall wdScenario).total_yield_kg ≠
      (predictYield mYieldFrac "Lettuce" fpSmall wdScenario).yield_kg_per_sqm
        * fpSmall.area_size := by
  have hml : predictYield mYieldFrac "Lettuce" fpSmall wdScenario =
      mlYieldResult (2513/1000) 40 3 := by
    simp [predictYield, mYieldFrac, fpSmall]
  have e1 : roundTo 2 ((2513 : ℚ)/1000) = 251/100 := by
    unfold roundTo
    rw [show (2513 : ℚ)/1000 * 10 ^ 2 = 2513/10 by norm_num,
      roundHalfEven_eq_of_lt_half (n := 251) (by norm_num) (by norm_num)]
    norm_num
  have e2 : roundTo 2 ((2513 : ℚ)/1000 * 3) = 377/50 := by
    unfold roundTo
    rw [show (2513 : ℚ)/1000 * 3 * 10 ^ 2 = 7539/10 by norm_num,
      roundHalfEven_eq_of_gt_half (n := 753) (by norm_num) (by norm_num)]
    norm_num
  rw [hml]
  simp only [mlYieldResult, e1, e2, fpSmall]
  norm_num

/-- C4 amended: total_yield equals max(0, round(raw_yield × area, 2))
computed from the raw regressor output, not from the rounded
yield_per_area; the exact identity total_yield = yield_per_area × area
holds whenever the area is nonnegative and both raw_yield and
raw_yield × area already have at most two decimal places (as on the
fallback path with a two-decimal base × area product). -/
theorem total_yield_exact_when_two_decimals (m : FarmModel) (crop : String)
    (fp : FarmParams) (wd : WeatherData) (yp gp : List ℚ → ℚ)
    (hy : m.yieldPredictor = some yp) (hg : m.growthPredictor = some gp)
    (harea : 0 ≤ fp.area_size)
    (h1 : (yp (scaledYieldFeatures m crop fp wd) * 10 ^ 2).den = 1)
    (h2 : (yp (scaledYieldFeatures m crop fp wd) * fp.area_size * 10 ^ 2).den = 1) :
    (predictYield m crop fp wd).total_yield_kg =
      (predictYield m crop fp wd).yield_kg_per_sqm * fp.area_size := by
  have e1 : roundTo 2 (yp (scaledYieldFeatures m crop fp wd)) =
      yp (scaledYieldFeatures m crop fp wd) := roundTo_eq_self h1
  have e2 : roundTo 2 (yp (scaledYieldFeatures m crop fp wd) * fp.area_size) =
      yp (scaledYieldFeatures m crop fp wd) * fp.area_size := roundTo_eq_self h2
  simp only [predictYield, hy, hg, mlYieldResult, e1, e2]
  rcases le_or_lt 0 (yp (scaledYieldFeatures m crop fp wd)) with h | h
  · rw [max_eq_right h, max_eq_right (mul_nonneg h harea)]
  · have hmul : yp (scaledYieldFeatures m crop fp wd) * fp.area_size ≤ 0 :=
      mul_nonpos_iff.mpr (Or.inr ⟨h.le, harea⟩)
    rw [max_eq_left hmul, max_eq_left h.le, zero_mul]

/-- C4 witness: with the two-decimal prediction 2.5 and area 3 the
exact identity holds. -/
theorem total_yield_exact_witness :
    (predictYield mYieldExact "Lettuce" fpSmall wdScenario).total_yield_kg =
      (predictYield mYieldExact "Lettuce" fpSmall wdScenario).yield_kg_per_sqm
        * fpSmall.area_size :=
  total_yield_exact_when_two_decimals mYieldExact "Lettuce" fpSmall wdScenario
    (fun _ => 5/2) (fun _ => 40) rfl rfl (by norm_num [fpSmall])
    (show ((5 : ℚ)/2 * 10 ^ 2).den = 1 by
      rw [show (5 : ℚ)/2 * 10 ^ 2 = ((250 : ℤ) : ℚ) by norm_num, Rat.den_intCast])
    (show ((5 : ℚ)/2 * (3 : ℚ) * 10 ^ 2).den = 1 by
      rw [show (5 : ℚ)/2 * (3 : ℚ) * 10 ^ 2 = ((750 : ℤ) : ℚ) by norm_num, Rat.den_intCast])

/-- C7: every yield estimate — trained or fallback, known or unknown
crop — returns growth_time_days ≥ 30 and yield_per_area ≥ 0. -/
theorem estimate_bounds (m : FarmModel) (crop : String) (fp : FarmParams)
    (wd : WeatherData) :
    30 ≤ (predictYield m crop fp wd).growth_time_days ∧
    0 ≤ (predictYield m crop fp wd).yield_kg_per_sqm := by
  unfold predictYield
  rcases m.yieldPredictor with _ | yp
  · exact ⟨by norm_num [getDefaultYieldPrediction],
      by simpa [getDefaultYieldPrediction] using base_yields_nonneg crop⟩
  rcases m.growthPredictor with _ | gp
  · exact ⟨by norm_num [getDefaultYieldPrediction],
      by simpa [getDefaultYieldPrediction] using base_yields_nonneg crop⟩
  · exact ⟨le_max_left _ _, le_max_left _ _⟩

/-- C9: a second `predict_yield` call with identical inputs on the
state left by the first call returns the same result, and the call
leaves the model state unchanged (the method only reads `self`). -/
theorem estimate_idempotent (m : FarmModel) (crop : String) (fp : FarmParams)
    (wd : WeatherData) :
    (predictYieldCall ((predictYieldCall m crop fp wd).2) crop fp wd).1 =
      (predictYieldCall m crop fp wd).1 ∧
    (predictYieldCall m crop fp wd).2 = m :=
  ⟨rfl, rfl⟩

/-- C6: crop recommendation always returns a non-empty list of at most
5 entries sorted by descending confidence — via the default-encoding
path for unknown categories when the classifier is trained (assuming
only the sklearn invariants that `classes_` is non-empty and
`predict_proba` returns one probability per class), and via the static
fallback list when it is not; the embedding is total, so no input
raises. -/
theorem recommend_structure (m : FarmModel) (loc : String) (fp : FarmParams)
    (wd : WeatherData)
    (hwf : ∀ clf, m.cropRecommender = some clf →
      clf.classes ≠ [] ∧ ∀ x, (clf.predictProba x).length = clf.classes.length) :
    recommendCrops m loc fp wd ≠ [] ∧
    (recommendCrops m loc fp wd).length ≤ 5 ∧
    (recommendCrops m loc fp wd).Pairwise (fun a b => b.confidence ≤ a.confidence) := by
  unfold recommendCrops
  rcases hc : m.cropRecommender with _ | clf
  · refine ⟨by simp [getDefaultRecommendations], by simp [getDefaultRecommendations], ?_⟩
    norm_num [getDefaultRecommendations, List.pairwise_cons]
  · obtain ⟨hne, hlen⟩ := hwf clf hc
    have hplen :
        (clf.classes.zip (clf.predictProba (recommendInputFeatures m fp wd))).length =
          clf.classes.length := by
      rw [List.length_zip, hlen, min_self]
    have hpos : 0 < (clf.classes.zip
        (clf.predictProba (recommendInputFeatures m fp wd))).length := by
      rw [hplen]
      exact List.length_pos.mpr hne
    refine ⟨?_, ?_, ?_⟩
    · rw [← List.length_pos]
      simp only [List.length_map, List.length_take, List.length_insertionSort]
      omega
    · simp only [List.length_map, List.length_take, List.length_insertionSort]
      omega
    · have hs : List.Pairwise probDesc
          ((List.insertionSort probDesc (clf.classes.zip
            (clf.predictProba (recommendInputFeatures m fp wd)))).take 5) :=
        (List.sorted_insertionSort probDesc _).sublist (List.take_sublist _ _)
      exact List.pairwise_map.mpr (hs.imp (fun hab =>
        roundTo_mono 2 (mul_le_mul_of_nonneg_right hab (by norm_num))))

/-- C6 witness: the two-class trained model with unseen categories
still returns a non-empty, ≤ 5, descending list. -/
theorem recommend_structure_witness :
    recommendCrops mRecommender "Nairobi" fpScenario wdScenario ≠ [] ∧
    (recommendCrops mRecommender "Nairobi" fpScenario wdScenario).length ≤ 5 ∧
    (recommendCrops mRecommender "Nairobi" fpScenario wdScenario).Pairwise
      (fun a b => b.confidence ≤ a.confidence) :=
  recommend_structure mRecommender "Nairobi" fpScenario wdScenario
    (fun clf h => by
      injection h with h'
      subst h'
      exact ⟨by simp [clfTwo], fun x => rfl⟩)

/-- C8: on the trained-classifier path every recommendation's
suitability label is determined by its raw class probability through
the thresholds 0.7 / 0.5 / 0.3 (the stored confidence is that same
probability scaled to 0–100 and rounded). -/
theorem suitability_thresholds (m : FarmModel) (loc : String) (fp : FarmParams)
    (wd : WeatherData) (clf : Classifier) (hc : m.cropRecommender = some clf) :
    ∀ e ∈ recommendCrops m loc fp wd, ∃ p : ℚ,
      e.confidence = roundTo 2 (p * 100) ∧
      e.suitability = (if 0.7 < p then "Excellent" else if 0.5 < p then "Good"
        else if 0.3 < p then "Fair" else "Poor") := by
  intro e he
  unfold recommendCrops at he
  rw [hc] at he
  obtain ⟨cp, hcp, rfl⟩ := List.mem_map.mp he
  exact ⟨cp.2, rfl, rfl⟩

/-- C8 witness: the Kale entry of the concrete two-class model carries
probability 0.7, confidence round(70, 2) and label "Good". -/
theorem suitability_thresholds_witness :
    ∃ p : ℚ,
      (Recommendation.mk "Kale" (roundTo 2 (7/10 * 100)) "Good").confidence =
        roundTo 2 (p * 100) ∧
      (Recommendation.mk "Kale" (roundTo 2 (7/10 * 100)) "Good").suitability =
        (if 0.7 < p then "Excellent" else if 0.5 < p then "Good"
         else if 0.3 < p then "Fair" else "Poor") :=
  suitability_thresholds mRecommender "Nairobi" fpScenario wdScenario clfTwo rfl
    ⟨"Kale", roundTo 2 (7/10 * 100), "Good"⟩
    (by
      have hrec : recommendCrops mRecommender "Nairobi" fpScenario wdScenario =
          [⟨"Kale", roundTo 2 (7/10 * 100), "Good"⟩,
           ⟨"Lettuce", roundTo 2 (3/10 * 100), "Poor"⟩] := by
        simp only [recommendCrops, mRecommender, clfTwo, List.zip,
          List.insertionSort, List.orderedInsert, List.zipWith, List.take,
          List.map, getSuitabilityLevel]
        norm_num [probDesc]
      rw [hrec]
      exact List.mem_cons_self _ _)

/-- C10: the recommendation result is independent of the
caller-supplied location datum (the derived climate zone is used
instead), and the derived zone is exactly one of the five canonical
values, chosen by the temperature bands < 10 / < 25 / ≥ 25 with the
humid variant iff humidity > 70. -/
theorem climate_zone_derivation (m : FarmModel) (fp : FarmParams)
    (wd : WeatherData) (loc loc' : String) :
    recommendCrops m loc fp wd = recommendCrops m loc' fp wd ∧
    determineClimateZone wd ∈
      ["cold", "temperate_humid", "temperate_dry", "tropical_humid", "tropical_dry"] ∧
    determineClimateZone wd =
      (if wd.temp < 10 then "cold"
       else if wd.temp < 25 then
         (if 70 < wd.humidity then "temperate_humid" else "temperate_dry")
       else (if 70 < wd.humidity then "tropical_humid" else "tropical_dry")) := by
  refine ⟨rfl, ?_, rfl⟩
  unfold determineClimateZone
  split_ifs <;> simp
